import Mathlib

/-!
# Verification of `sstk` `sim/sensors/CameraSensor.js`

Shallow embedding of the `CameraSensor` component: a camera-style virtual
sensor that configures a render camera (single or array), obtains a renderer
from an injected factory, and post-processes raw pixels into one of several
output encodings.

Modelling conventions:
* JS objects become Lean structures; absent (`undefined`) fields become
  `Option` values.
* The external collaborators (`Sensor` base class, `gfx/Camera`'s
  `createArrayCamera`, the renderer implementations, `Constants`) are not part
  of the verified source; they are abstracted as injected functions or
  universally quantified data, exactly as the code receives them.
* Mutation of shared JS objects is made explicit with a small heap of config
  objects (`Heap`), so that clone-then-mutate versus mutate-in-place is
  faithfully represented.
* Calls into the external renderer and console are recorded in traces so that
  theorems can speak about what the renderer observed.
* The grayscale luma computation `0.2126*R + 0.7152*G + 0.0722*B` is IEEE-754
  binary64 arithmetic in JavaScript; it is embedded exactly over `ℚ` with a
  round-to-nearest-even rounding function (`fl`).
-/

namespace CameraSensorModel

/- The `Rat` operations are `@[irreducible]` in Batteries, which blocks
`decide`-style evaluation of the model on concrete inputs; restore
reducibility locally. -/
attribute [local semireducible] Rat.add Rat.mul Rat.inv Rat.sub Rat.ofScientific

/-! ## IEEE-754 binary64 arithmetic over ℚ

JavaScript numbers are IEEE-754 binary64 values.  Every finite double is a
rational number, and each arithmetic operation produces the representable
value nearest the exact result (ties to even).  For the magnitudes occurring
in the luma computation (all results are `0` or lie well inside the normal
range), a double is exactly a rational of the form `± m * 2^(e-52)` with
`2^52 ≤ m < 2^53`, and rounding is: scale into `[2^52, 2^53)`, round to the
nearest integer with ties to even, scale back. -/

/-- Round a rational to the nearest integer, ties to even. -/
def rne (m : ℚ) : ℤ :=
  let f := ⌊m⌋
  let r := m - (f : ℚ)
  if r < 1 / 2 then f
  else if 1 / 2 < r then f + 1
  else if f % 2 = 0 then f else f + 1

/-- Fuel-bounded helper for `log2floor` on arguments `≥ 1`: the number of
halvings needed to bring the argument below `2`, i.e. `⌊log₂ q⌋`. -/
def log2floorDown : ℚ → ℕ → ℤ
  | _, 0 => 0
  | q, fuel + 1 => if q < 2 then 0 else log2floorDown (q / 2) fuel + 1

/-- Fuel-bounded helper for `log2floor` on arguments in `(0, 1)`: minus the
number of doublings needed to reach `1`, i.e. `⌊log₂ q⌋` (the argument is
strictly between consecutive powers of two, so no doubling lands on `1`). -/
def log2floorUp : ℚ → ℕ → ℤ
  | _, 0 => 0
  | q, fuel + 1 => if 1 ≤ q then 0 else log2floorUp (q * 2) fuel - 1

/-- Floor of `log₂ q` for positive `q` (structurally computable: `q ≥ 1` needs at
most `q.num.natAbs` halvings, `q < 1` at most `q.den` doublings). -/
def log2floor (q : ℚ) : ℤ :=
  if 1 ≤ q then log2floorDown q (q.num.natAbs + 1)
  else log2floorUp q (q.den + 1)

/-- Round a rational to the nearest IEEE-754 binary64 value, ties to even
(normal range; sufficient for the luma computation, whose values are `0` or
lie in `[0.0722, 2^11)`): with `e = ⌊log₂ |q|⌋`, scale the significand into
`[2^52, 2^53)`, round to the nearest integer with ties to even, and scale
back. -/
def fl (q : ℚ) : ℚ :=
  if q = 0 then 0
  else
    let e : ℤ := log2floor |q|
    (rne (q * 2 ^ (52 - e)) : ℚ) * 2 ^ (e - 52)

/-- The binary64 value denoted by the JavaScript literal `0.2126`. -/
def c2126 : ℚ := fl (0.2126 : ℚ)

/-- The binary64 value denoted by the JavaScript literal `0.7152`. -/
def c7152 : ℚ := fl (0.7152 : ℚ)

/-- The binary64 value denoted by the JavaScript literal `0.0722`. -/
def c0722 : ℚ := fl (0.0722 : ℚ)

/-- The luma value computed by
`0.2126 * p[b] + 0.7152 * p[b+1] + 0.0722 * p[b+2]` in binary64 arithmetic
(products first, then the two additions, left associated, each individually
rounded).  Byte operands are exactly representable. -/
def lumaF (r g b : ℕ) : ℚ :=
  fl (fl (fl (c2126 * r) + fl (c7152 * g)) + fl (c0722 * b))

/-- JavaScript `ToUint8`, restricted to the non-negative finite values that
occur here: truncate toward zero, then reduce modulo `2^8`.  (`q.num / q.den`
is Lean's `Int` division, which truncates toward zero; `%` on `Int` is `emod`,
whose result is non-negative for a positive modulus.) -/
def toUint8 (q : ℚ) : ℕ := ((q.num / q.den) % 256).toNat

/-- The byte stored by `p[i] = 0.2126 * p[b] + 0.7152 * p[b+1] + 0.0722 * p[b+2]`
on a `Uint8Array`: the binary64 luma, converted by `ToUint8`. -/
def lumaByte (r g b : ℕ) : ℕ := toUint8 (lumaF r g b)

/-- The grayscale formula of the specification read with *exact* (real)
arithmetic instead of binary64: the byte truncation of
`0.2126·R + 0.7152·G + 0.0722·B`.  Kept separate from `lumaByte` (the code's
arithmetic) so the two readings can be compared. -/
def lumaByteExact (r g b : ℕ) : ℕ :=
  toUint8 ((0.2126 : ℚ) * r + (0.7152 : ℚ) * g + (0.0722 : ℚ) * b)

/-! ## Scene state, camera, renderer, config -/

/-- A 3D vector (`THREE.Vector3`); components as rationals. -/
structure V3 where
  x : ℚ
  y : ℚ
  z : ℚ
deriving DecidableEq, Repr

/-- A scene-graph node whose only observable here is its `visible` flag
(`sceneState.debugNode`). -/
structure DebugNode where
  visible : Bool
deriving DecidableEq, Repr

/-- The renderable scene handed to the renderer; only its `name` is read by
`CameraSensor` (for PNG filenames). -/
structure Scene where
  name : String
deriving DecidableEq, Repr

/-- The `sceneState` argument of `getFrame`: an external object optionally
carrying a `debugNode` and optionally a nested `fullScene`.  When `fullScene`
is absent the scene state itself is the renderable scene (`scene =
sceneState.fullScene || sceneState`); `sceneOf` returns that renderable
view. -/
structure SceneState where
  name : String
  fullScene : Option Scene
  debugNode : Option DebugNode
deriving DecidableEq, Repr

/-- Source line `var scene = sceneState.fullScene || sceneState;`. -/
def sceneOf (ss : SceneState) : Scene :=
  match ss.fullScene with
  | some sc => sc
  | none => { name := ss.name }

/-- The camera object owned by the sensor.  Fields cover what this component
reads or writes: `aspect` (written by `setSize` and the constructor),
`isArrayCamera` (branch condition in `setSize`), `name` and
`isEquirectangular` (tagged in the constructor), and for an array camera the
`userData.shape` / `userData.imageShape` produced by `createArrayCamera`. -/
structure Camera where
  name : String
  fov : ℚ
  aspect : ℚ
  near : ℚ
  far : ℚ
  position : V3
  lookAtTarget : Option V3
  isArrayCamera : Bool
  isEquirectangular : Option Bool
  userDataShape : Option (List ℕ)
  userDataImageShape : Option (List ℕ)
deriving DecidableEq, Repr

/-- The renderer obtained from `opts.getRenderer`; this component reads and
writes only its `width`/`height` (its drawing entry points are injected
separately as `RendererFuns`). -/
structure Renderer where
  width : ℕ
  height : ℕ
deriving DecidableEq, Repr

/-- A sensor configuration object.  Required-in-practice fields keep their
plain types; fields the code tolerates being absent are `Option`s (an absent
JS field reads as `undefined`). -/
structure ConfigObj where
  name : String
  position : List V3
  orientation : Option (List V3)
  resolution : Option (List ℕ)
  encoding : String
  fov : Option ℚ
  near : Option ℚ
  far : Option ℚ
  width : Option ℕ
  height : Option ℕ
  isEquirectangular : Option Bool
  renderer : Option String
  cameraArrayShape : Option (List ℕ)
  datatype : Option String
  type : Option String
deriving DecidableEq, Repr

/-- Modelled from the spec: `Constants.metersToVirtualUnit`, the fixed scale
constant converting meters to internal scene units (the `Constants` module is
outside the verified source; the repository uses 100 virtual units per
meter). -/
def metersToVirtualUnit : ℚ := 100

/-! ## The sensor state -/

/-- The `CameraSensor` instance state.  `name` and `config` are recorded by
the `Sensor` base class (modelled from the spec: the base class stores the
sensor's identity and its original config object); `config` is the caller's
config, which this component never mutates after construction. -/
structure CameraSensor where
  name : String
  config : ConfigObj
  showDebugNode : Bool
  camera : Camera
  renderer : Renderer
  numFramesRendered : ℕ
deriving DecidableEq, Repr

/-! ## Renderer entry points and call traces

The renderer's drawing functions are external collaborators, injected as pure
functions.  Each takes the scene state at call time (the renderer renders the
live scene graph, so it observes e.g. the debug node's current visibility),
the chosen renderable scene, and the camera. -/

/-- The injected renderer drawing interface. -/
structure RendererFuns where
  renderToRawPixels : SceneState → Scene → Camera → List ℕ
  renderToBuffer : SceneState → Scene → Camera → List ℕ
  renderToPng : SceneState → Scene → Camera → String → List ℕ
  render : SceneState → Scene → Camera → List ℕ

/-- One observable event during frame capture: a renderer invocation
(recording the scene state the renderer observed) or a console error. -/
inductive RCall where
  | rawPixels (ss : SceneState) (scene : Scene)
  | toBuffer (ss : SceneState) (scene : Scene)
  | toPng (ss : SceneState) (scene : Scene) (filename : String)
  | render (ss : SceneState) (scene : Scene)
  | consoleError (msg : String)
deriving DecidableEq, Repr

/-- The scene state a renderer invocation observed (`none` for a console
error, which does not touch the renderer). -/
def RCall.observedState : RCall → Option SceneState
  | .rawPixels ss _ => some ss
  | .toBuffer ss _ => some ss
  | .toPng ss _ _ => some ss
  | .render ss _ => some ss
  | .consoleError _ => none

/-! ## The grayscale packing loop -/

/-- One pass of the in-place grayscale loop:
`for (var i = 0; i < ngraypixels; i++) { var b = i << 2; p[i] = ...; }`,
unrolled as a recursion on the remaining iteration count `m`, with `i` the
current index.  Reads `p[4i], p[4i+1], p[4i+2]` from the *current* buffer
(in-place semantics) and stores the `ToUint8`-converted binary64 luma at
index `i`. -/
def grayLoopAux : List ℕ → ℕ → ℕ → List ℕ
  | p, _, 0 => p
  | p, i, m + 1 =>
    grayLoopAux
      (p.set i (lumaByte (p.getD (4 * i) 0) (p.getD (4 * i + 1) 0) (p.getD (4 * i + 2) 0)))
      (i + 1) m

/-- Source `var ngraypixels = p.length / 4;` followed by the in-place loop.  (The
buffers produced by the renderer have length divisible by 4; `/` is then
exact.) -/
def grayLoop (p : List ℕ) : List ℕ := grayLoopAux p 0 (p.length / 4)

/-- Source `p.slice(0, ngraypixels)` after the loop: the packed grayscale buffer. -/
def grayPack (p : List ℕ) : List ℕ := (grayLoop p).take (p.length / 4)

/-! ## Frame capture -/

/-- Lodash `_.padStart(s, n, '0')`: left-pad `s` with `'0'` to length `n`
(no-op when `s` is already at least that long). -/
def padStart (s : String) (n : ℕ) : String :=
  String.mk (List.replicate (n - s.length) '0') ++ s

/-- The frame record returned by `__getFrame`:
`{type, data, encoding, shape}`.  `data = none` models the `null` payload. -/
structure Frame where
  type : String
  data : Option (List ℕ)
  encoding : String
  shape : List ℕ
deriving DecidableEq, Repr

/-- Source `CameraSensor.prototype.__getFrame`: select the renderable scene, dispatch
on `config.encoding`, and build the frame record.  Returns the frame together
with the trace of renderer/console events. -/
def «__getFrame» (rf : RendererFuns) (s : CameraSensor) (ss : SceneState) :
    Frame × List RCall :=
  let scene := sceneOf ss
  let encoding := s.config.encoding
  let sceneId := scene.name
  let camera := s.camera
  let (pixels, numChannels, calls) :
      Option (List ℕ) × ℕ × List RCall :=
    match encoding with
    | "rgba" =>
      (some (rf.renderToRawPixels ss scene camera), 4, [.rawPixels ss scene])
    | "gray" =>
      let p := rf.renderToRawPixels ss scene camera
      let ngraypixels := p.length / 4
      (some ((grayLoopAux p 0 ngraypixels).take ngraypixels), 1,
        [.rawPixels ss scene])
    | "pngbuf" =>
      (some (rf.renderToBuffer ss scene camera), 4, [.toBuffer ss scene])
    | "pngfile" =>
      let pngfile := sceneId ++ "_" ++ s.name ++ ".png"
      (some (rf.renderToPng ss scene camera pngfile), 4,
        [.toPng ss scene pngfile])
    | "pngseq" =>
      let pngseq := sceneId ++ "_" ++ s.name ++ "_" ++
        padStart (toString s.numFramesRendered) 5 ++ ".png"
      (some (rf.renderToPng ss scene camera pngseq), 4,
        [.toPng ss scene pngseq])
    | "screen" =>
      (some (rf.render ss scene camera), 4, [.render ss scene])
    | _ =>
      (none, 4, [.consoleError ("Invalid encoding: " ++ encoding)])
  ({ type := "color"
     data := pixels
     encoding := encoding
     shape := [s.renderer.width, s.renderer.height, numChannels] },
   calls)

/-- The scene state as `__getFrame` observes it: the debug node's `visible`
flag (when a debug node is present) forced to the sensor's `showDebugNode`
flag, as done at the top of `getFrame`. -/
def captureState (s : CameraSensor) (ss : SceneState) : SceneState :=
  match ss.debugNode with
  | some _ => { ss with debugNode := some { visible := s.showDebugNode } }
  | none => ss

/-- Source `CameraSensor.prototype.getFrame`: save the debug node's visibility (if
present), force it to the sensor's `showDebugNode` flag, capture via
`__getFrame`, increment the frame counter, restore the saved visibility, and
return the frame.  Returns the frame, the updated sensor, the scene state
after the call, and the capture trace. -/
def getFrame (rf : RendererFuns) (s : CameraSensor) (ss : SceneState) :
    Frame × CameraSensor × SceneState × List RCall :=
  let saved : Option Bool := ss.debugNode.map (·.visible)
  let ss1 : SceneState := captureState s ss
  let (result, calls) := «__getFrame» rf s ss1
  let s' := { s with numFramesRendered := s.numFramesRendered + 1 }
  let ss2 : SceneState :=
    match ss1.debugNode, saved with
    | some _, some v => { ss1 with debugNode := some { visible := v } }
    | _, _ => ss1
  (result, s', ss2, calls)

/-! ## Metadata accessors -/

/-- Source `CameraSensor.prototype.getShape`. -/
def getShape (s : CameraSensor) : List ℕ :=
  [s.renderer.width, s.renderer.height, 4]

/-- Source `CameraSensor.prototype.getDataRange`. -/
def getDataRange (_s : CameraSensor) : List ℕ := [0, 255]

/-- The record returned by `CameraSensor.prototype.getMetadata`. -/
structure Metadata where
  name : String
  type : Option String
  shape : List ℕ
  dataType : String
  dataRange : List ℕ
deriving DecidableEq, Repr

/-- Source `CameraSensor.prototype.getMetadata`: `dataType` is
`config.datatype || 'uint8'`. -/
def getMetadata (s : CameraSensor) : Metadata :=
  { name := s.name
    type := s.config.type
    shape := getShape s
    dataType := s.config.datatype.getD "uint8"
    dataRange := getDataRange s }

/-- Source `CameraSensor.prototype.createPixelBuffer`:
`new Uint8Array(4 * width * height)` (zero-initialized). -/
def createPixelBuffer (s : CameraSensor) : List ℕ :=
  List.replicate (4 * s.renderer.width * s.renderer.height) 0

/-! ## Resize -/

/-- Observable events of the constructor and of `setSize`: the renderer
factory invocation (recording the config object it received), console output,
and the camera/renderer collaborator calls made by `setSize`. -/
inductive SensorAction where
  | getRendererCall (cfg : ConfigObj)
  | consoleLog (msg : String)
  | updateProjectionMatrix
  | resizeCameras (w h : ℕ)
  | rendererSetSize (w h : ℕ)
deriving DecidableEq, Repr

/-- Source `CameraSensor.prototype.setSize`: log, set the camera's aspect ratio to
`width/height`, recompute its projection, propagate to the sub-cameras when
the camera is an array camera, and call the renderer's `setSize` exactly when
the renderer's current size differs.  Returns the updated sensor and the
trace of collaborator calls. -/
def setSize (s : CameraSensor) (width height : ℕ) : CameraSensor × List SensorAction :=
  let logMsg := "resize sensor " ++ s.name ++ " to " ++ toString width ++ "x" ++ toString height
  let cam := { s.camera with aspect := (width : ℚ) / (height : ℚ) }
  let acts := [SensorAction.consoleLog logMsg, SensorAction.updateProjectionMatrix] ++
    (if cam.isArrayCamera then [SensorAction.resizeCameras width height] else [])
  if s.renderer.width ≠ width ∨ s.renderer.height ≠ height then
    ({ s with camera := cam, renderer := { width := width, height := height } },
     acts ++ [SensorAction.rendererSetSize width height])
  else
    ({ s with camera := cam }, acts)

/-! ## Construction

JS config objects are shared by reference and mutated in place, so the
constructor is modelled over an explicit heap of config objects: `_.defaults`
and `_.clone` allocate fresh cells, field assignments update a cell, and the
caller's object sits at its own id.  This makes "the caller's config is not
mutated" a real statement about the program rather than a modelling
artifact. -/

/-- A heap of JS config objects; a cell's id is its index.  `alloc` appends. -/
structure Heap where
  objs : List ConfigObj
deriving DecidableEq, Repr

/-- Read the object at id `i` (`none` = dangling reference). -/
def Heap.get (h : Heap) (i : ℕ) : Option ConfigObj := h.objs[i]?

/-- Overwrite the object at id `i`. -/
def Heap.set (h : Heap) (i : ℕ) (c : ConfigObj) : Heap := ⟨h.objs.set i c⟩

/-- Allocate a fresh object, returning the new heap and the fresh id. -/
def Heap.alloc (h : Heap) (c : ConfigObj) : Heap × ℕ :=
  (⟨h.objs ++ [c]⟩, h.objs.length)

/-- Result of running the constructor: the final heap, the ids of the working
camera config and of the config handed to the renderer factory (the latter
equals the caller's id when no clone was made), the sensor, and the action
trace. -/
structure ConstructResult where
  heap : Heap
  cameraConfigId : ℕ
  rendererConfigId : ℕ
  sensor : CameraSensor
  trace : List SensorAction
deriving DecidableEq, Repr

/-- Common tail of the constructor (source lines 60–67): tag the camera with
the sensor name and the equirectangular flag, obtain the renderer from the
factory on the renderer config `rc`, and, when the obtained renderer's size
differs from `rc.width`/`rc.height` (absent fields compare unequal to any
number, as in JS), immediately resize via `setSize`. -/
def finishConstruct (getRenderer : ConfigObj → Renderer) (showDebugNode : Bool)
    (config cc rc : ConfigObj) (cam0 : Camera) (heap : Heap)
    (camCfgId rcId : ℕ) : ConstructResult :=
  let cam := { cam0 with name := config.name, isEquirectangular := cc.isEquirectangular }
  let renderer := getRenderer rc
  let s0 : CameraSensor :=
    { name := config.name, config := config, showDebugNode := showDebugNode,
      camera := cam, renderer := renderer, numFramesRendered := 0 }
  if some renderer.width ≠ rc.width ∨ some renderer.height ≠ rc.height then
    let (s1, acts) := setSize s0 renderer.width renderer.height
    { heap := heap, cameraConfigId := camCfgId, rendererConfigId := rcId,
      sensor := s1, trace := [SensorAction.getRendererCall rc] ++ acts }
  else
    { heap := heap, cameraConfigId := camCfgId, rendererConfigId := rcId,
      sensor := s0, trace := [SensorAction.getRendererCall rc] }

/-- Source line
`var cameraConfig = _.defaults(Object.create(null), config, {fov: 45, near: 0.001, far: 20});`:
a fresh object with all of `config`'s fields, the three defaults filled in
for absent fields. -/
def defaultedConfig (config : ConfigObj) : ConfigObj :=
  { config with
    fov := some (config.fov.getD 45)
    near := some (config.near.getD 0.001)
    far := some (config.far.getD 20) }

/-- The working camera config after the in-place mutations of source lines
29–33: `near`/`far` scaled by `Constants.metersToVirtualUnit`, and
`width`/`height` read off `resolution` (`resl` is the `resolution` list). -/
def workingCameraConfig (config : ConfigObj) (resl : List ℕ) : ConfigObj :=
  { defaultedConfig config with
    near := some ((defaultedConfig config).near.getD 0 * metersToVirtualUnit)
    far := some ((defaultedConfig config).far.getD 0 * metersToVirtualUnit)
    width := resl[0]?
    height := resl[1]? }

/-- The renderer config built in the array-camera branch (source lines
38–45): a clone of `config` with `cameraArrayShape` and `resolution` taken
from the array camera's `userData`, and the `renderer` hint deleted when not
in a browser and the hint is `"main"`. -/
def arrayRendererConfig (isBrowser : Bool) (config : ConfigObj) (cam0 : Camera) :
    ConfigObj :=
  let rc1 : ConfigObj :=
    { config with
      cameraArrayShape := cam0.userDataShape
      resolution := cam0.userDataImageShape }
  if ¬isBrowser ∧ rc1.renderer = some "main" then
    { rc1 with renderer := none }
  else rc1

/-- The single perspective camera built in the non-array branch (source
lines 47–58): `new Camera(fov, width/height, near, far)` positioned at
`position[0]`, looking at `position[0] + orientation[0]` when an orientation
is given. -/
def singlePerspectiveCamera (cc : ConfigObj) (camPos : V3) (tgt : Option V3) : Camera :=
  { name := ""
    fov := cc.fov.getD 0
    aspect := ((cc.width.getD 0 : ℕ) : ℚ) / ((cc.height.getD 0 : ℕ) : ℚ)
    near := cc.near.getD 0
    far := cc.far.getD 0
    position := camPos
    lookAtTarget := tgt
    isArrayCamera := false
    isEquirectangular := none
    userDataShape := none
    userDataImageShape := none }

/-- The `CameraSensor` constructor.  `isBrowser` stands for
`Constants.isBrowser`; `createArrayCamera` is the external
`gfx/Camera.createArrayCamera` factory; `getRenderer` is the injected
renderer factory (`opts.getRenderer`).  The caller's config object lives in
heap `h0` at id `cfgId`.  Returns `none` exactly where the JS constructor
throws (dangling config, missing `resolution`, empty `position`, or an
`orientation` list without a first entry). -/
def construct (isBrowser : Bool) (createArrayCamera : ConfigObj → Camera)
    (getRenderer : ConfigObj → Renderer) (showDebugNode : Bool)
    (h0 : Heap) (cfgId : ℕ) : Option ConstructResult :=
  match h0.get cfgId with
  | none => none
  | some config =>
    let (h1, camCfgId) := h0.alloc (defaultedConfig config)
    match config.resolution with
    | none => none
    | some res =>
      let cc1 := workingCameraConfig config res
      let h2 := h1.set camCfgId cc1
      if cc1.position.length > 1 then
        let cam0 := createArrayCamera cc1
        let (h3, rcId) := h2.alloc config
        let rc2 := arrayRendererConfig isBrowser config cam0
        let h4 := h3.set rcId rc2
        some (finishConstruct getRenderer showDebugNode config cc1 rc2 cam0 h4 camCfgId rcId)
      else
        match cc1.position[0]? with
        | none => none
        | some camPos =>
          let withTarget : Option (Option V3) :=
            match cc1.orientation with
            | some ors =>
              match ors[0]? with
              | none => none
              | some o => some (some ⟨camPos.x + o.x, camPos.y + o.y, camPos.z + o.z⟩)
            | none => some none
          match withTarget with
          | none => none
          | some tgt =>
            some (finishConstruct getRenderer showDebugNode config cc1 config
              (singlePerspectiveCamera cc1 camPos tgt) h2 camCfgId cfgId)

/-! ## Concrete fixtures (used to evaluate the model on closed inputs) -/

/-- A concrete well-formed single-position sensor configuration. -/
def exampleConfig : ConfigObj :=
  { name := "cam0"
    position := [⟨0, 0, 0⟩]
    orientation := none
    resolution := some [64, 48]
    encoding := "rgba"
    fov := none
    near := none
    far := none
    width := some 64
    height := some 48
    isEquirectangular := none
    renderer := none
    cameraArrayShape := none
    datatype := none
    type := some "color" }

/-- A concrete camera matching `exampleConfig`. -/
def exampleCamera : Camera :=
  { name := "cam0"
    fov := 45
    aspect := 64 / 48
    near := 0.1
    far := 2000
    position := ⟨0, 0, 0⟩
    lookAtTarget := none
    isArrayCamera := false
    isEquirectangular := none
    userDataShape := none
    userDataImageShape := none }

/-- A concrete constructed sensor state. -/
def exampleSensor : CameraSensor :=
  { name := "cam0"
    config := exampleConfig
    showDebugNode := false
    camera := exampleCamera
    renderer := { width := 64, height := 48 }
    numFramesRendered := 0 }

/-- A concrete renderer implementation returning fixed pixel data; the raw
buffer is a 2×1 RGBA image with pixels (0,28,152,255) and (255,255,255,255). -/
def exampleRF : RendererFuns :=
  { renderToRawPixels := fun _ _ _ => [0, 28, 152, 255, 255, 255, 255, 255]
    renderToBuffer := fun _ _ _ => [1, 2, 3]
    renderToPng := fun _ _ _ _ => [9]
    render := fun _ _ _ => [] }

/-- A concrete scene state named `scene1`, without a debug node. -/
def exampleScene : SceneState :=
  { name := "scene1", fullScene := none, debugNode := none }

/-- A concrete renderer factory honouring the requested `width`/`height`. -/
def exampleGetRenderer : ConfigObj → Renderer :=
  fun c => { width := c.width.getD 0, height := c.height.getD 0 }

/-- A concrete renderer factory that ignores the request and returns a
100×50 renderer (a renderer that silently resizes). -/
def exampleGetRendererBig : ConfigObj → Renderer :=
  fun _ => { width := 100, height := 50 }

/-- A concrete stand-in for the external `createArrayCamera` factory,
producing an array camera with layout shape `[1, 2]` and combined image
shape `[128, 48]`. -/
def exampleCreateArrayCamera : ConfigObj → Camera :=
  fun _ =>
    { exampleCamera with
        isArrayCamera := true
        userDataShape := some [1, 2]
        userDataImageShape := some [128, 48] }

/-- A concrete two-position (array camera) configuration requesting the
`"main"` renderer. -/
def exampleArrayConfig : ConfigObj :=
  { exampleConfig with
      position := [⟨0, 0, 0⟩, ⟨1, 0, 0⟩]
      renderer := some "main" }

/-- Fallback construct result (never reached on the fixtures). -/
def emptyResult : ConstructResult :=
  { heap := { objs := [] }, cameraConfigId := 0, rendererConfigId := 0,
    sensor := exampleSensor, trace := [] }

/-- The result of constructing from `exampleConfig` with a size-honouring
renderer factory. -/
def exampleConstructResult : ConstructResult :=
  (construct false exampleCreateArrayCamera exampleGetRenderer false
    { objs := [exampleConfig] } 0).getD emptyResult

/-- The result of constructing from `exampleConfig` when the factory returns
a 100×50 renderer (triggering the construction-time resize). -/
def exampleConstructResultResized : ConstructResult :=
  (construct false exampleCreateArrayCamera exampleGetRendererBig false
    { objs := [exampleConfig] } 0).getD emptyResult

/-- The result of constructing from the array configuration outside a
browser. -/
def exampleArrayConstructResult : ConstructResult :=
  (construct false exampleCreateArrayCamera exampleGetRenderer false
    { objs := [exampleArrayConfig] } 0).getD emptyResult

/-- The raw RGBA buffer the renderer returns inside `getFrame` for the
`"gray"` encoding: `renderToRawPixels` applied to the capture-time scene
state. -/
def rawGrayInput (rf : RendererFuns) (s : CameraSensor) (ss : SceneState) : List ℕ :=
  rf.renderToRawPixels (captureState s ss) (sceneOf (captureState s ss)) s.camera

/-! # Theorems -/

set_option maxRecDepth 10000

/-! ## Helper lemmas about `getFrame` -/

theorem sceneOf_captureState (s : CameraSensor) (ss : SceneState) :
    sceneOf (captureState s ss) = sceneOf ss := by
  cases h : ss.debugNode <;> simp [captureState, sceneOf, h]

theorem captureState_of_none (s : CameraSensor) (ss : SceneState)
    (h : ss.debugNode = none) : captureState s ss = ss := by
  simp [captureState, h]

theorem captureState_of_some (s : CameraSensor) (ss : SceneState) (dn : DebugNode)
    (h : ss.debugNode = some dn) :
    captureState s ss = { ss with debugNode := some { visible := s.showDebugNode } } := by
  simp [captureState, h]

theorem getFrame_fst (rf : RendererFuns) (s : CameraSensor) (ss : SceneState) :
    (getFrame rf s ss).1 = («__getFrame» rf s (captureState s ss)).1 := rfl

theorem getFrame_calls (rf : RendererFuns) (s : CameraSensor) (ss : SceneState) :
    (getFrame rf s ss).2.2.2 = («__getFrame» rf s (captureState s ss)).2 := rfl

theorem getFrame_sensor (rf : RendererFuns) (s : CameraSensor) (ss : SceneState) :
    (getFrame rf s ss).2.1 = { s with numFramesRendered := s.numFramesRendered + 1 } := rfl

theorem getFrame_sceneAfter_of_none (rf : RendererFuns) (s : CameraSensor)
    (ss : SceneState) (h : ss.debugNode = none) :
    (getFrame rf s ss).2.2.1 = ss := by
  simp [getFrame, captureState, h]

theorem getFrame_sceneAfter_of_some (rf : RendererFuns) (s : CameraSensor)
    (ss : SceneState) (dn : DebugNode) (h : ss.debugNode = some dn) :
    (getFrame rf s ss).2.2.1 = ss := by
  cases ss with
  | mk nm fs dbg =>
    cases dn with
    | mk v =>
      simp only [SceneState.debugNode] at h
      subst h
      simp [getFrame, captureState]

theorem getFrame_aux_rgba (rf : RendererFuns) (s : CameraSensor) (ss : SceneState)
    (h : s.config.encoding = "rgba") :
    «__getFrame» rf s ss =
      ({ type := "color", data := some (rf.renderToRawPixels ss (sceneOf ss) s.camera),
         encoding := "rgba", shape := [s.renderer.width, s.renderer.height, 4] },
       [RCall.rawPixels ss (sceneOf ss)]) := by
  simp [«__getFrame», h]

theorem getFrame_aux_gray (rf : RendererFuns) (s : CameraSensor) (ss : SceneState)
    (h : s.config.encoding = "gray") :
    «__getFrame» rf s ss =
      ({ type := "color",
         data := some (grayPack (rf.renderToRawPixels ss (sceneOf ss) s.camera)),
         encoding := "gray", shape := [s.renderer.width, s.renderer.height, 1] },
       [RCall.rawPixels ss (sceneOf ss)]) := by
  simp [«__getFrame», h, grayPack, grayLoop]

theorem getFrame_aux_pngseq (rf : RendererFuns) (s : CameraSensor) (ss : SceneState)
    (h : s.config.encoding = "pngseq") :
    «__getFrame» rf s ss =
      ({ type := "color",
         data := some (rf.renderToPng ss (sceneOf ss) s.camera
           ((sceneOf ss).name ++ "_" ++ s.name ++ "_" ++
             padStart (toString s.numFramesRendered) 5 ++ ".png")),
         encoding := "pngseq", shape := [s.renderer.width, s.renderer.height, 4] },
       [RCall.toPng ss (sceneOf ss)
         ((sceneOf ss).name ++ "_" ++ s.name ++ "_" ++
           padStart (toString s.numFramesRendered) 5 ++ ".png")]) := by
  simp [«__getFrame», h]

theorem getFrame_aux_default (rf : RendererFuns) (s : CameraSensor) (ss : SceneState)
    (h : s.config.encoding ∉ ["rgba", "gray", "pngbuf", "pngfile", "pngseq", "screen"]) :
    «__getFrame» rf s ss =
      ({ type := "color", data := none, encoding := s.config.encoding,
         shape := [s.renderer.width, s.renderer.height, 4] },
       [RCall.consoleError ("Invalid encoding: " ++ s.config.encoding)]) := by
  simp only [List.mem_cons, List.mem_singleton, not_or] at h
  simp only [«__getFrame»]
  split <;> simp_all

/-! ## C1 -/

/-- C1: for every scene state and every encoding string outside
`{"rgba","gray","pngbuf","pngfile","pngseq","screen"}`, `getFrame` returns a
record `{type: "color", data: null, encoding: <requested encoding>, shape:
[renderer.width, renderer.height, 4]}` without raising an exception (the model
of `getFrame` is a total function); the error is only logged (the capture
trace is exactly one console-error event and contains no renderer call). -/
theorem getFrame_unknown_encoding_contract (rf : RendererFuns) (s : CameraSensor)
    (ss : SceneState)
    (h : s.config.encoding ∉ ["rgba", "gray", "pngbuf", "pngfile", "pngseq", "screen"]) :
    (getFrame rf s ss).1 =
      { type := "color", data := none, encoding := s.config.encoding,
        shape := [s.renderer.width, s.renderer.height, 4] } ∧
    (getFrame rf s ss).2.2.2 =
      [RCall.consoleError ("Invalid encoding: " ++ s.config.encoding)] := by
  rw [getFrame_fst, getFrame_calls, getFrame_aux_default rf s _ h]
  exact ⟨rfl, rfl⟩

/-- Witness for C1 at the concrete encoding `"bogus"`. -/
theorem getFrame_unknown_encoding_contract_witness :
    (getFrame exampleRF
        { exampleSensor with config := { exampleConfig with encoding := "bogus" } }
        exampleScene).1 =
      { type := "color", data := none, encoding := "bogus", shape := [64, 48, 4] } ∧
    (getFrame exampleRF
        { exampleSensor with config := { exampleConfig with encoding := "bogus" } }
        exampleScene).2.2.2 = [RCall.consoleError "Invalid encoding: bogus"] :=
  getFrame_unknown_encoding_contract exampleRF
    { exampleSensor with config := { exampleConfig with encoding := "bogus" } }
    exampleScene (by decide)

/-! ## C3 -/

/-- C3: for the `"pngseq"` encoding the output filename is
`<sceneName>_<sensorName>_<counter>.png` with the pre-increment frame counter
zero-padded to 5 digits; and for every encoding each `getFrame` call
increments the stored frame counter by exactly 1. -/
theorem pngseq_filename_and_counter (rf : RendererFuns) (s : CameraSensor)
    (ss : SceneState) :
    (getFrame rf s ss).2.1.numFramesRendered = s.numFramesRendered + 1 ∧
    (s.config.encoding = "pngseq" →
      (getFrame rf s ss).2.2.2 =
        [RCall.toPng (captureState s ss) (sceneOf ss)
          ((sceneOf ss).name ++ "_" ++ s.name ++ "_" ++
            padStart (toString s.numFramesRendered) 5 ++ ".png")]) := by
  refine ⟨by rw [getFrame_sensor], fun h => ?_⟩
  rw [getFrame_calls, getFrame_aux_pngseq rf s _ h, sceneOf_captureState]

/-- Witness for C3: sensor `cam0`, scene `scene1`, counter 7 yields filename
`scene1_cam0_00007.png`, and the counter becomes 8. -/
theorem pngseq_filename_and_counter_witness :
    (getFrame exampleRF
        { exampleSensor with
            numFramesRendered := 7
            config := { exampleConfig with encoding := "pngseq" } }
        exampleScene).2.1.numFramesRendered = 8 ∧
    (getFrame exampleRF
        { exampleSensor with
            numFramesRendered := 7
            config := { exampleConfig with encoding := "pngseq" } }
        exampleScene).2.2.2 =
      [RCall.toPng exampleScene { name := "scene1" } "scene1_cam0_00007.png"] := by
  have h := pngseq_filename_and_counter exampleRF
    { exampleSensor with
        numFramesRendered := 7
        config := { exampleConfig with encoding := "pngseq" } } exampleScene
  refine ⟨h.1, ?_⟩
  rw [h.2 rfl]
  decide

/-! ## C4 -/

theorem getFrame_aux_observed (rf : RendererFuns) (s : CameraSensor) (ss1 : SceneState) :
    ∀ c ∈ («__getFrame» rf s ss1).2, ∀ st ∈ c.observedState, st = ss1 := by
  intro c hc st hst
  simp only [«__getFrame»] at hc
  split at hc <;> simp_all [RCall.observedState]

/-- C4: for every scene state carrying a debug node, during the capture step
every renderer invocation observes the node's `visible` field equal to the
sensor's `showDebugNode` flag, and after `getFrame` returns the scene state
(in particular the node's `visible` field) equals its value from before the
call. -/
theorem debugNode_forced_and_restored (rf : RendererFuns) (s : CameraSensor)
    (ss : SceneState) (dn : DebugNode) (h : ss.debugNode = some dn) :
    (∀ c ∈ (getFrame rf s ss).2.2.2, ∀ st ∈ c.observedState,
        st.debugNode = some { visible := s.showDebugNode }) ∧
    (getFrame rf s ss).2.2.1 = ss := by
  refine ⟨?_, getFrame_sceneAfter_of_some rf s ss dn h⟩
  intro c hc st hst
  rw [getFrame_calls] at hc
  rw [getFrame_aux_observed rf s _ c hc st hst]
  simp [captureState, h]

/-- Witness for C4: debug node visible before the call, sensor flag `false`;
the renderer observes `false`, and visibility is restored afterwards. -/
theorem debugNode_forced_and_restored_witness :
    (∀ c ∈ (getFrame exampleRF exampleSensor
        { exampleScene with debugNode := some { visible := true } }).2.2.2,
        ∀ st ∈ c.observedState, st.debugNode = some { visible := false }) ∧
    (getFrame exampleRF exampleSensor
        { exampleScene with debugNode := some { visible := true } }).2.2.1 =
      { exampleScene with debugNode := some { visible := true } } :=
  debugNode_forced_and_restored exampleRF exampleSensor
    { exampleScene with debugNode := some { visible := true } } { visible := true } rfl

/-! ## C8 -/

/-- C8: for every sensor, `getShape()` returns
`[renderer.width, renderer.height, 4]` regardless of the configured encoding
and `getDataRange()` returns `[0, 255]`; under the `"gray"` encoding the
frame's shape reports 1 channel, disagreeing with `getShape()`'s 4; and
`getMetadata()` reports dataType `"uint8"` whenever `config.datatype` is
absent. -/
theorem shape_metadata_contract (rf : RendererFuns) (s : CameraSensor) (ss : SceneState) :
    getShape s = [s.renderer.width, s.renderer.height, 4] ∧
    getDataRange s = [0, 255] ∧
    (s.config.encoding = "gray" →
      (getFrame rf s ss).1.shape = [s.renderer.width, s.renderer.height, 1]) ∧
    (s.config.datatype = none → (getMetadata s).dataType = "uint8") := by
  refine ⟨rfl, rfl, fun henc => ?_, fun hd => by simp [getMetadata, hd]⟩
  rw [getFrame_fst, getFrame_aux_gray rf s _ henc]

/-- Witness for C8: the universal conjuncts at a concrete rgba sensor, and
the gray-shape and absent-datatype conjuncts at a concrete gray sensor. -/
theorem shape_metadata_contract_witness :
    getShape exampleSensor = [64, 48, 4] ∧
    getShape { exampleSensor with config := { exampleConfig with encoding := "gray" } } =
      [64, 48, 4] ∧
    getDataRange exampleSensor = [0, 255] ∧
    (getFrame exampleRF
        { exampleSensor with config := { exampleConfig with encoding := "gray" } }
        exampleScene).1.shape = [64, 48, 1] ∧
    (getMetadata { exampleSensor with
        config := { exampleConfig with encoding := "gray" } }).dataType = "uint8" := by
  have h0 := shape_metadata_contract exampleRF exampleSensor exampleScene
  have hg := shape_metadata_contract exampleRF
    { exampleSensor with config := { exampleConfig with encoding := "gray" } }
    exampleScene
  exact ⟨h0.1, hg.1, h0.2.1, hg.2.2.1 rfl, hg.2.2.2 rfl⟩

/-! ## C10 -/

/-- C10: for every scene state without a debug node, `getFrame` performs no
write to the scene state; and in every case — debug node present or not —
the only sensor field `getFrame` mutates is the frame counter (camera,
renderer, config and name are unchanged). -/
theorem getFrame_mutation_footprint (rf : RendererFuns) (s : CameraSensor)
    (ss : SceneState) :
    (ss.debugNode = none → (getFrame rf s ss).2.2.1 = ss) ∧
    (getFrame rf s ss).2.1 =
      { s with numFramesRendered := s.numFramesRendered + 1 } :=
  ⟨fun h => getFrame_sceneAfter_of_none rf s ss h, getFrame_sensor rf s ss⟩

/-- Witness for C10: a scene state without a debug node is returned
unchanged, and the counter-only sensor update also holds on a scene state
that does carry a debug node. -/
theorem getFrame_mutation_footprint_witness :
    (getFrame exampleRF exampleSensor exampleScene).2.2.1 = exampleScene ∧
    (getFrame exampleRF exampleSensor exampleScene).2.1 =
      { exampleSensor with numFramesRendered := 1 } ∧
    (getFrame exampleRF exampleSensor
        { exampleScene with debugNode := some { visible := true } }).2.1 =
      { exampleSensor with numFramesRendered := 1 } := by
  have h1 := getFrame_mutation_footprint exampleRF exampleSensor exampleScene
  have h2 := getFrame_mutation_footprint exampleRF exampleSensor
    { exampleScene with debugNode := some { visible := true } }
  exact ⟨h1.1 rfl, h1.2, h2.2⟩

/-! ## C7 -/

/-- C7: `setSize(width, height)` sets the camera's aspect ratio to
`width/height` and recomputes its projection (for an array camera it also
propagates the size to each sub-camera); it invokes the renderer's `setSize`
if and only if the renderer's current width or height differs from the
requested one; with matching sizes the only state change is the camera's
aspect update (the JS method returns no value; its effects are exactly the
state update and the traced collaborator calls). -/
theorem setSize_contract (s : CameraSensor) (w h : ℕ) :
    (setSize s w h).1.camera.aspect = (w : ℚ) / (h : ℚ) ∧
    SensorAction.updateProjectionMatrix ∈ (setSize s w h).2 ∧
    (s.camera.isArrayCamera = true → SensorAction.resizeCameras w h ∈ (setSize s w h).2) ∧
    (SensorAction.rendererSetSize w h ∈ (setSize s w h).2 ↔
      (s.renderer.width ≠ w ∨ s.renderer.height ≠ h)) ∧
    (s.renderer.width = w ∧ s.renderer.height = h →
      (setSize s w h).1 =
        { s with camera := { s.camera with aspect := (w : ℚ) / (h : ℚ) } }) := by
  by_cases harr : s.camera.isArrayCamera <;>
    by_cases hw : s.renderer.width = w <;>
      by_cases hh : s.renderer.height = h <;>
        simp [setSize, harr, hw, hh]

/-- Witness for C7: resizing to the renderer's current 64×48 performs no
renderer resize but still updates camera aspect and recomputes the
projection; an array camera propagates the size to its sub-cameras. -/
theorem setSize_contract_witness :
    (setSize exampleSensor 64 48).1.camera.aspect = (64 : ℚ) / 48 ∧
    SensorAction.updateProjectionMatrix ∈ (setSize exampleSensor 64 48).2 ∧
    SensorAction.rendererSetSize 64 48 ∉ (setSize exampleSensor 64 48).2 ∧
    (setSize exampleSensor 64 48).1 =
      { exampleSensor with camera := { exampleCamera with aspect := (64 : ℚ) / 48 } } ∧
    SensorAction.resizeCameras 10 20 ∈
      (setSize { exampleSensor with
          camera := { exampleCamera with isArrayCamera := true } } 10 20).2 := by
  have h1 := setSize_contract exampleSensor 64 48
  have h2 := setSize_contract
    { exampleSensor with camera := { exampleCamera with isArrayCamera := true } } 10 20
  refine ⟨h1.1, h1.2.1, ?_, h1.2.2.2.2 ⟨rfl, rfl⟩, h2.2.2.1 rfl⟩
  intro hm
  rcases (h1.2.2.2.1).mp hm with hne | hne <;> exact hne rfl

/-! ## Helper lemmas about the heap and the constructor -/

theorem Heap.get_lt {h : Heap} {i : ℕ} {c : ConfigObj} (hg : h.get i = some c) :
    i < h.objs.length :=
  (List.getElem?_eq_some_iff.mp hg).1

theorem Heap.get_alloc_left {h : Heap} {i : ℕ} (c : ConfigObj)
    (hi : i < h.objs.length) : (h.alloc c).1.get i = h.get i := by
  simp [Heap.alloc, Heap.get, List.getElem?_append_left hi]

theorem Heap.get_alloc_new (h : Heap) (c : ConfigObj) :
    (h.alloc c).1.get h.objs.length = some c := by
  simp [Heap.alloc, Heap.get, List.getElem?_concat_length]

theorem Heap.get_set_ne {j i : ℕ} (hne : j ≠ i) (h : Heap) (c : ConfigObj) :
    (h.set j c).get i = h.get i := by
  simp [Heap.set, Heap.get, List.getElem?_set_ne hne]

theorem Heap.get_set_self {h : Heap} {j : ℕ} (hj : j < h.objs.length) (c : ConfigObj) :
    (h.set j c).get j = some c := by
  simp [Heap.set, Heap.get, List.getElem?_set_eq_of_lt _ hj]

theorem Heap.length_set (h : Heap) (j : ℕ) (c : ConfigObj) :
    (h.set j c).objs.length = h.objs.length := by
  simp [Heap.set]

theorem Heap.length_alloc (h : Heap) (c : ConfigObj) :
    (h.alloc c).1.objs.length = h.objs.length + 1 := by
  simp [Heap.alloc]

theorem finishConstruct_heap (gr : ConfigObj → Renderer) (sd : Bool)
    (config cc rc : ConfigObj) (cam0 : Camera) (H : Heap) (a b : ℕ) :
    (finishConstruct gr sd config cc rc cam0 H a b).heap = H := by
  simp only [finishConstruct]
  split <;> rfl

theorem finishConstruct_camId (gr : ConfigObj → Renderer) (sd : Bool)
    (config cc rc : ConfigObj) (cam0 : Camera) (H : Heap) (a b : ℕ) :
    (finishConstruct gr sd config cc rc cam0 H a b).cameraConfigId = a := by
  simp only [finishConstruct]
  split <;> rfl

theorem finishConstruct_rcId (gr : ConfigObj → Renderer) (sd : Bool)
    (config cc rc : ConfigObj) (cam0 : Camera) (H : Heap) (a b : ℕ) :
    (finishConstruct gr sd config cc rc cam0 H a b).rendererConfigId = b := by
  simp only [finishConstruct]
  split <;> rfl

theorem finishConstruct_renderer (gr : ConfigObj → Renderer) (sd : Bool)
    (config cc rc : ConfigObj) (cam0 : Camera) (H : Heap) (a b : ℕ) :
    (finishConstruct gr sd config cc rc cam0 H a b).sensor.renderer = gr rc := by
  simp only [finishConstruct]
  split
  · simp [setSize]
  · rfl

theorem finishConstruct_trace_head (gr : ConfigObj → Renderer) (sd : Bool)
    (config cc rc : ConfigObj) (cam0 : Camera) (H : Heap) (a b : ℕ) :
    (finishConstruct gr sd config cc rc cam0 H a b).trace.head? =
      some (SensorAction.getRendererCall rc) := by
  simp only [finishConstruct]
  split <;> rfl

theorem finishConstruct_camera_near (gr : ConfigObj → Renderer) (sd : Bool)
    (config cc rc : ConfigObj) (cam0 : Camera) (H : Heap) (a b : ℕ) :
    (finishConstruct gr sd config cc rc cam0 H a b).sensor.camera.near = cam0.near ∧
    (finishConstruct gr sd config cc rc cam0 H a b).sensor.camera.far = cam0.far := by
  simp only [finishConstruct]
  split <;> simp [setSize]

theorem construct_single_eq (isBrowser : Bool) (cac : ConfigObj → Camera)
    (gr : ConfigObj → Renderer) (sd : Bool) (h0 : Heap) (cfgId : ℕ)
    (config : ConfigObj) (resl : List ℕ) (camPos : V3)
    (hc : h0.get cfgId = some config) (hr : config.resolution = some resl)
    (hpos : config.position = [camPos]) (hor : config.orientation = none) :
    construct isBrowser cac gr sd h0 cfgId =
      some (finishConstruct gr sd config (workingCameraConfig config resl) config
        (singlePerspectiveCamera (workingCameraConfig config resl) camPos none)
        ((h0.alloc (defaultedConfig config)).1.set h0.objs.length
          (workingCameraConfig config resl))
        h0.objs.length cfgId) := by
  simp [construct, hc, hr, Heap.alloc, workingCameraConfig, defaultedConfig, hpos, hor]

theorem construct_array_eq (isBrowser : Bool) (cac : ConfigObj → Camera)
    (gr : ConfigObj → Renderer) (sd : Bool) (h0 : Heap) (cfgId : ℕ)
    (config : ConfigObj) (resl : List ℕ)
    (hc : h0.get cfgId = some config) (hr : config.resolution = some resl)
    (hpos : config.position.length > 1) :
    construct isBrowser cac gr sd h0 cfgId =
      some (finishConstruct gr sd config (workingCameraConfig config resl)
        (arrayRendererConfig isBrowser config (cac (workingCameraConfig config resl)))
        (cac (workingCameraConfig config resl))
        (Heap.set
          ((((h0.alloc (defaultedConfig config)).1.set h0.objs.length
              (workingCameraConfig config resl)).alloc config).1)
          (h0.objs.length + 1)
          (arrayRendererConfig isBrowser config (cac (workingCameraConfig config resl))))
        h0.objs.length (h0.objs.length + 1)) := by
  have hp : (workingCameraConfig config resl).position = config.position := rfl
  simp [construct, hc, hr, Heap.alloc, hp, hpos, Heap.length_set, Heap.length_alloc]

theorem finishConstruct_resize (gr : ConfigObj → Renderer) (sd : Bool)
    (config cc rc : ConfigObj) (cam0 : Camera) (H : Heap) (a b : ℕ)
    (hne : some (gr rc).width ≠ rc.width ∨ some (gr rc).height ≠ rc.height) :
    (finishConstruct gr sd config cc rc cam0 H a b).sensor.camera.aspect =
      ((gr rc).width : ℚ) / ((gr rc).height : ℚ) ∧
    SensorAction.updateProjectionMatrix ∈
      (finishConstruct gr sd config cc rc cam0 H a b).trace := by
  simp only [finishConstruct]
  rw [if_pos hne]
  constructor
  · simp only [setSize]
    split <;> rfl
  · simp only [setSize]
    split <;> simp

theorem finishConstruct_noresize (gr : ConfigObj → Renderer) (sd : Bool)
    (config cc rc : ConfigObj) (cam0 : Camera) (H : Heap) (a b : ℕ)
    (h1 : rc.width = some (gr rc).width) (h2 : rc.height = some (gr rc).height) :
    (finishConstruct gr sd config cc rc cam0 H a b).trace =
      [SensorAction.getRendererCall rc] ∧
    (finishConstruct gr sd config cc rc cam0 H a b).sensor.camera =
      { cam0 with name := config.name, isEquirectangular := cc.isEquirectangular } := by
  simp only [finishConstruct]
  rw [if_neg (by simp [h1, h2])]
  exact ⟨rfl, rfl⟩

theorem arrayRendererConfig_fields (isBrowser : Bool) (config : ConfigObj) (cam0 : Camera) :
    (arrayRendererConfig isBrowser config cam0).resolution = cam0.userDataImageShape ∧
    (arrayRendererConfig isBrowser config cam0).cameraArrayShape = cam0.userDataShape ∧
    (arrayRendererConfig isBrowser config cam0).width = config.width ∧
    (arrayRendererConfig isBrowser config cam0).height = config.height := by
  simp only [arrayRendererConfig]
  split <;> simp

theorem finishConstruct_size_spec (gr : ConfigObj → Renderer) (sd : Bool)
    (config cc rc : ConfigObj) (cam0 : Camera) (H : Heap) (a b : ℕ) (rw0 rh0 : ℕ)
    (hwc : rc.width = some rw0) (hhc : rc.height = some rh0) :
    (finishConstruct gr sd config cc rc cam0 H a b).trace.head? =
      some (SensorAction.getRendererCall rc) ∧
    (finishConstruct gr sd config cc rc cam0 H a b).sensor.renderer = gr rc ∧
    getShape (finishConstruct gr sd config cc rc cam0 H a b).sensor =
      [(gr rc).width, (gr rc).height, 4] ∧
    (((gr rc).width ≠ rw0 ∨ (gr rc).height ≠ rh0) →
      (finishConstruct gr sd config cc rc cam0 H a b).sensor.camera.aspect =
        ((gr rc).width : ℚ) / ((gr rc).height : ℚ) ∧
      SensorAction.updateProjectionMatrix ∈
        (finishConstruct gr sd config cc rc cam0 H a b).trace) ∧
    (((gr rc).width = rw0 ∧ (gr rc).height = rh0) →
      (finishConstruct gr sd config cc rc cam0 H a b).trace =
        [SensorAction.getRendererCall rc]) := by
  refine ⟨finishConstruct_trace_head gr sd config cc rc cam0 H a b,
    finishConstruct_renderer gr sd config cc rc cam0 H a b, ?_, ?_, ?_⟩
  · simp [getShape, finishConstruct_renderer]
  · intro hne
    refine finishConstruct_resize gr sd config cc rc cam0 H a b ?_
    rcases hne with h | h
    · exact Or.inl (by rw [hwc]; simpa using h)
    · exact Or.inr (by rw [hhc]; simpa using h)
  · rintro ⟨e1, e2⟩
    exact (finishConstruct_noresize gr sd config cc rc cam0 H a b
      (by rw [hwc, e1]) (by rw [hhc, e2])).1

/-! ## C9 -/

/-- C9: constructing a `CameraSensor` leaves the caller's config object
unchanged in the heap, while the camera is built from a private working copy
(a distinct heap cell) on which the defaults `fov=45`, `near=0.001`, `far=20`
are applied for absent fields and `near`/`far` are scaled by
`metersToVirtualUnit` before being handed to the camera. -/
theorem construct_preserves_caller_config (isBrowser : Bool) (cac : ConfigObj → Camera)
    (gr : ConfigObj → Renderer) (sd : Bool) (h0 : Heap) (cfgId : ℕ)
    (config : ConfigObj) (res : ConstructResult)
    (hc : h0.get cfgId = some config)
    (hres : construct isBrowser cac gr sd h0 cfgId = some res) :
    res.heap.get cfgId = some config ∧
    res.cameraConfigId ≠ cfgId ∧
    (∀ resl, config.resolution = some resl →
      res.heap.get res.cameraConfigId = some (workingCameraConfig config resl) ∧
      (workingCameraConfig config resl).fov = some (config.fov.getD 45) ∧
      (workingCameraConfig config resl).near =
        some (config.near.getD 0.001 * metersToVirtualUnit) ∧
      (workingCameraConfig config resl).far =
        some (config.far.getD 20 * metersToVirtualUnit)) ∧
    (config.position.length ≤ 1 →
      res.sensor.camera.near = config.near.getD 0.001 * metersToVirtualUnit ∧
      res.sensor.camera.far = config.far.getD 20 * metersToVirtualUnit) := by
  have hlt : cfgId < h0.objs.length := Heap.get_lt hc
  have hne : h0.objs.length ≠ cfgId := ne_of_gt hlt
  have hwf : ∀ resl : List ℕ,
      (workingCameraConfig config resl).fov = some (config.fov.getD 45) ∧
      (workingCameraConfig config resl).near =
        some (config.near.getD 0.001 * metersToVirtualUnit) ∧
      (workingCameraConfig config resl).far =
        some (config.far.getD 20 * metersToVirtualUnit) := by
    intro resl
    simp [workingCameraConfig, defaultedConfig]
  have e1 : (h0.alloc (defaultedConfig config)).2 = h0.objs.length := rfl
  have hlen1 : (h0.alloc (defaultedConfig config)).1.objs.length = h0.objs.length + 1 :=
    Heap.length_alloc _ _
  simp only [construct, hc] at hres
  split at hres
  · simp at hres
  · rename_i resl hr
    have hwf1 := hwf resl
    split at hres
    · rename_i hgt1
      have hgt : config.position.length > 1 := hgt1
      rw [Option.some.injEq] at hres
      subst hres
      have e2 : (((h0.alloc (defaultedConfig config)).1.set h0.objs.length
          (workingCameraConfig config resl)).alloc config).2 = h0.objs.length + 1 := by
        show ((h0.alloc (defaultedConfig config)).1.set h0.objs.length
          (workingCameraConfig config resl)).objs.length = h0.objs.length + 1
        rw [Heap.length_set, hlen1]
      refine ⟨?_, ?_, ?_, ?_⟩
      · rw [finishConstruct_heap, e1, e2]
        rw [Heap.get_set_ne (by omega),
          Heap.get_alloc_left _ (by rw [Heap.length_set, hlen1]; omega),
          Heap.get_set_ne hne, Heap.get_alloc_left _ hlt]
        exact hc
      · rw [finishConstruct_camId, e1]
        exact hne
      · intro resl2 hr2
        have : resl2 = resl := by rw [hr] at hr2; exact (Option.some.inj hr2).symm
        subst this
        refine ⟨?_, hwf1.1, hwf1.2.1, hwf1.2.2⟩
        rw [finishConstruct_heap, finishConstruct_camId, e1, e2]
        rw [Heap.get_set_ne (by omega),
          Heap.get_alloc_left _ (by rw [Heap.length_set, hlen1]; omega)]
        exact Heap.get_set_self (by rw [hlen1]; omega) _
      · intro hle
        omega
    · rename_i hpos
      split at hres
      · simp at hres
      · rename_i camPos hp0
        split at hres
        · simp at hres
        · rename_i tgt htgt
          rw [Option.some.injEq] at hres
          subst hres
          refine ⟨?_, ?_, ?_, ?_⟩
          · rw [finishConstruct_heap, e1]
            rw [Heap.get_set_ne hne, Heap.get_alloc_left _ hlt]
            exact hc
          · rw [finishConstruct_camId, e1]
            exact hne
          · intro resl2 hr2
            have : resl2 = resl := by rw [hr] at hr2; exact (Option.some.inj hr2).symm
            subst this
            refine ⟨?_, hwf1.1, hwf1.2.1, hwf1.2.2⟩
            rw [finishConstruct_heap, finishConstruct_camId, e1]
            exact Heap.get_set_self (by rw [hlen1]; omega) _
          · intro hle
            have hn := (finishConstruct_camera_near gr sd config (workingCameraConfig config resl)
              config (singlePerspectiveCamera (workingCameraConfig config resl) camPos tgt)
              ((h0.alloc (defaultedConfig config)).1.set (h0.alloc (defaultedConfig config)).2
                (workingCameraConfig config resl)) (h0.alloc (defaultedConfig config)).2 cfgId)
            rw [hn.1, hn.2]
            constructor <;>
              simp [singlePerspectiveCamera, workingCameraConfig, defaultedConfig]

/-- Witness for C9 on the concrete single-camera fixture: heap cell 0 still
holds the original config after construction, the working copy lives in a
different cell, and the camera received the defaulted, scaled `near`/`far`. -/
theorem construct_preserves_caller_config_witness :
    exampleConstructResult.heap.get 0 = some exampleConfig ∧
    exampleConstructResult.cameraConfigId ≠ 0 ∧
    exampleConstructResult.heap.get exampleConstructResult.cameraConfigId =
      some (workingCameraConfig exampleConfig [64, 48]) ∧
    exampleConstructResult.sensor.camera.near = 0.001 * metersToVirtualUnit ∧
    exampleConstructResult.sensor.camera.far = 20 * metersToVirtualUnit := by
  obtain ⟨h1, h2, h3, h4⟩ :=
    construct_preserves_caller_config false exampleCreateArrayCamera exampleGetRenderer
      false { objs := [exampleConfig] } 0 exampleConfig exampleConstructResult
      (by decide) (by decide)
  exact ⟨h1, h2, (h3 [64, 48] (by decide)).1, (h4 (by decide)).1, (h4 (by decide)).2⟩

/-! ## C5 -/

/-- C5: after obtaining the renderer from the factory, the sensor is resized
via `setSize` to the renderer's actual size exactly when the renderer's size
differs from the requested `width`/`height`; in both cases the sensor keeps
the factory's renderer, so `getShape()` reports the renderer's actual size
even when it differs from the requested resolution; when sizes agree, no
construction-time resize occurs (the trace is just the factory call). -/
theorem construct_renderer_size_reconciliation (isBrowser : Bool)
    (cac : ConfigObj → Camera) (gr : ConfigObj → Renderer) (sd : Bool)
    (h0 : Heap) (cfgId : ℕ) (config : ConfigObj) (res : ConstructResult)
    (rw0 rh0 : ℕ) (hc : h0.get cfgId = some config)
    (hw : config.width = some rw0) (hh : config.height = some rh0)
    (hres : construct isBrowser cac gr sd h0 cfgId = some res) :
    ∃ rc, res.trace.head? = some (SensorAction.getRendererCall rc) ∧
      rc.width = some rw0 ∧ rc.height = some rh0 ∧
      res.sensor.renderer = gr rc ∧
      getShape res.sensor = [(gr rc).width, (gr rc).height, 4] ∧
      (((gr rc).width ≠ rw0 ∨ (gr rc).height ≠ rh0) →
        res.sensor.camera.aspect = ((gr rc).width : ℚ) / ((gr rc).height : ℚ) ∧
        SensorAction.updateProjectionMatrix ∈ res.trace) ∧
      ((gr rc).width = rw0 ∧ (gr rc).height = rh0 →
        res.trace = [SensorAction.getRendererCall rc]) := by
  simp only [construct, hc] at hres
  split at hres
  · simp at hres
  · rename_i resl hr
    split at hres
    · rw [Option.some.injEq] at hres
      subst hres
      have hf := arrayRendererConfig_fields isBrowser config
        (cac (workingCameraConfig config resl))
      have hwc : (arrayRendererConfig isBrowser config
          (cac (workingCameraConfig config resl))).width = some rw0 := hf.2.2.1.trans hw
      have hhc : (arrayRendererConfig isBrowser config
          (cac (workingCameraConfig config resl))).height = some rh0 := hf.2.2.2.trans hh
      have h5 := finishConstruct_size_spec gr sd config (workingCameraConfig config resl)
        (arrayRendererConfig isBrowser config (cac (workingCameraConfig config resl)))
        (cac (workingCameraConfig config resl))
        ((((h0.alloc (defaultedConfig config)).1.set (h0.alloc (defaultedConfig config)).2
            (workingCameraConfig config resl)).alloc config).1.set
          (((h0.alloc (defaultedConfig config)).1.set (h0.alloc (defaultedConfig config)).2
              (workingCameraConfig config resl)).alloc config).2
          (arrayRendererConfig isBrowser config (cac (workingCameraConfig config resl))))
        (h0.alloc (defaultedConfig config)).2
        (((h0.alloc (defaultedConfig config)).1.set (h0.alloc (defaultedConfig config)).2
            (workingCameraConfig config resl)).alloc config).2
        rw0 rh0 hwc hhc
      exact ⟨arrayRendererConfig isBrowser config (cac (workingCameraConfig config resl)),
        h5.1, hwc, hhc, h5.2.1, h5.2.2.1, h5.2.2.2.1, h5.2.2.2.2⟩
    · rename_i hpos
      split at hres
      · simp at hres
      · rename_i camPos hp0
        split at hres
        · simp at hres
        · rename_i tgt htgt
          rw [Option.some.injEq] at hres
          subst hres
          have h5 := finishConstruct_size_spec gr sd config (workingCameraConfig config resl)
            config (singlePerspectiveCamera (workingCameraConfig config resl) camPos tgt)
            ((h0.alloc (defaultedConfig config)).1.set (h0.alloc (defaultedConfig config)).2
              (workingCameraConfig config resl))
            (h0.alloc (defaultedConfig config)).2 cfgId rw0 rh0 hw hh
          exact ⟨config, h5.1, hw, hh, h5.2.1, h5.2.2.1, h5.2.2.2.1, h5.2.2.2.2⟩

/-- Witness for C5: with a size-honouring factory the construction trace is
just the factory call (no resize) and `getShape` reports 64×48; with a
factory returning 100×50 the camera aspect is updated to 100/50 and a
projection recompute is traced. -/
theorem construct_renderer_size_reconciliation_witness :
    exampleConstructResult.trace = [SensorAction.getRendererCall exampleConfig] ∧
    getShape exampleConstructResult.sensor = [64, 48, 4] ∧
    exampleConstructResultResized.sensor.camera.aspect = (100 : ℚ) / 50 ∧
    SensorAction.updateProjectionMatrix ∈ exampleConstructResultResized.trace ∧
    getShape exampleConstructResultResized.sensor = [100, 50, 4] := by
  obtain ⟨rc, hhead, hwc, hhc, hrend, hshape, hdiff, heq⟩ :=
    construct_renderer_size_reconciliation false exampleCreateArrayCamera
      exampleGetRenderer false { objs := [exampleConfig] } 0 exampleConfig
      exampleConstructResult 64 48 (by decide) (by decide) (by decide) (by decide)
  have hrc : rc = exampleConfig := by
    have h2 : exampleConstructResult.trace.head? =
        some (SensorAction.getRendererCall exampleConfig) := by decide
    exact SensorAction.getRendererCall.inj (Option.some.inj (hhead.symm.trans h2))
  subst hrc
  obtain ⟨rc2, hhead2, hwc2, hhc2, hrend2, hshape2, hdiff2, heq2⟩ :=
    construct_renderer_size_reconciliation false exampleCreateArrayCamera
      exampleGetRendererBig false { objs := [exampleConfig] } 0 exampleConfig
      exampleConstructResultResized 64 48 (by decide) (by decide) (by decide) (by decide)
  refine ⟨heq ⟨by decide, by decide⟩, by decide, by decide,
    (hdiff2 (Or.inl (by simp [exampleGetRendererBig]))).2, by decide⟩

/-! ## C6 -/

/-- C6: for a multi-position config, the config handed to the renderer
factory is a clone whose `resolution` is the array camera's combined image
shape and whose `cameraArrayShape` is its layout shape; outside a browser a
`"main"` renderer hint is removed from the clone; otherwise the clone differs
from the caller's config only in those two fields; and the caller's config
cell itself is left untouched. -/
theorem construct_array_renderer_config (isBrowser : Bool) (cac : ConfigObj → Camera)
    (gr : ConfigObj → Renderer) (sd : Bool) (h0 : Heap) (cfgId : ℕ)
    (config : ConfigObj) (resl : List ℕ) (res : ConstructResult)
    (hc : h0.get cfgId = some config) (hr : config.resolution = some resl)
    (hpos : config.position.length > 1)
    (hres : construct isBrowser cac gr sd h0 cfgId = some res) :
    res.trace.head? = some (SensorAction.getRendererCall
      (arrayRendererConfig isBrowser config (cac (workingCameraConfig config resl)))) ∧
    (arrayRendererConfig isBrowser config (cac (workingCameraConfig config resl))).resolution =
      (cac (workingCameraConfig config resl)).userDataImageShape ∧
    (arrayRendererConfig isBrowser config
        (cac (workingCameraConfig config resl))).cameraArrayShape =
      (cac (workingCameraConfig config resl)).userDataShape ∧
    (isBrowser = false ∧ config.renderer = some "main" →
      (arrayRendererConfig isBrowser config
        (cac (workingCameraConfig config resl))).renderer = none) ∧
    (¬(isBrowser = false ∧ config.renderer = some "main") →
      arrayRendererConfig isBrowser config (cac (workingCameraConfig config resl)) =
        { config with
            cameraArrayShape := (cac (workingCameraConfig config resl)).userDataShape
            resolution := (cac (workingCameraConfig config resl)).userDataImageShape }) ∧
    res.rendererConfigId ≠ cfgId ∧
    res.heap.get cfgId = some config := by
  have hlt : cfgId < h0.objs.length := Heap.get_lt hc
  have hne : h0.objs.length ≠ cfgId := ne_of_gt hlt
  have hlen1 : (h0.alloc (defaultedConfig config)).1.objs.length = h0.objs.length + 1 :=
    Heap.length_alloc _ _
  rw [construct_array_eq isBrowser cac gr sd h0 cfgId config resl hc hr hpos,
    Option.some.injEq] at hres
  subst hres
  have hf := arrayRendererConfig_fields isBrowser config
    (cac (workingCameraConfig config resl))
  refine ⟨finishConstruct_trace_head _ _ _ _ _ _ _ _ _, hf.1, hf.2.1, ?_, ?_, ?_, ?_⟩
  · rintro ⟨hb, hm⟩
    subst hb
    simp [arrayRendererConfig, hm]
  · intro hnm
    simp only [arrayRendererConfig]
    rw [if_neg]
    rintro ⟨hb2, hm2⟩
    refine hnm ⟨?_, hm2⟩
    revert hb2
    cases isBrowser <;> simp
  · rw [finishConstruct_rcId]
    omega
  · rw [finishConstruct_heap]
    rw [Heap.get_set_ne (by omega),
      Heap.get_alloc_left _ (by rw [Heap.length_set, hlen1]; omega),
      Heap.get_set_ne hne, Heap.get_alloc_left _ hlt]
    exact hc

/-- Witness for C6 on the concrete two-position fixture requesting the
`"main"` renderer outside a browser: the factory receives a clone with
`resolution = [128, 48]`, `cameraArrayShape = [1, 2]` and no renderer hint,
and the caller's config cell is untouched. -/
theorem construct_array_renderer_config_witness :
    exampleArrayConstructResult.trace.head? =
      some (SensorAction.getRendererCall
        { exampleArrayConfig with
            cameraArrayShape := some [1, 2]
            resolution := some [128, 48]
            renderer := none }) ∧
    exampleArrayConstructResult.rendererConfigId ≠ 0 ∧
    exampleArrayConstructResult.heap.get 0 = some exampleArrayConfig := by
  obtain ⟨hh, hres, hshape, hmain, hcopy, hne, hheap⟩ :=
    construct_array_renderer_config false exampleCreateArrayCamera exampleGetRenderer
      false { objs := [exampleArrayConfig] } 0 exampleArrayConfig [64, 48]
      exampleArrayConstructResult (by decide) (by decide) (by decide) (by decide)
  exact ⟨by rw [hh]; decide, hne, hheap⟩

/-! ## C2 -/

theorem grayLoopAux_spec (orig : List ℕ) :
    ∀ (m i : ℕ) (p : List ℕ), p.length = orig.length →
      (∀ j, i ≤ j → p.getD j 0 = orig.getD j 0) →
      (∀ j, j < i → j < orig.length →
        p.getD j 0 =
          lumaByte (orig.getD (4*j) 0) (orig.getD (4*j+1) 0) (orig.getD (4*j+2) 0)) →
      (grayLoopAux p i m).length = orig.length ∧
      (∀ j, j < i + m → j < orig.length →
        (grayLoopAux p i m).getD j 0 =
          lumaByte (orig.getD (4*j) 0) (orig.getD (4*j+1) 0) (orig.getD (4*j+2) 0)) ∧
      (∀ j, i + m ≤ j → (grayLoopAux p i m).getD j 0 = orig.getD j 0) := by
  intro m
  induction m with
  | zero =>
    intro i p hlen hup hdone
    refine ⟨by simpa [grayLoopAux] using hlen, ?_, ?_⟩
    · intro j hj hjl
      exact hdone j (by omega) hjl
    · intro j hj
      exact hup j (by omega)
  | succ m ih =>
    intro i p hlen hup hdone
    simp only [grayLoopAux]
    have hlen' :
        (p.set i (lumaByte (p.getD (4*i) 0) (p.getD (4*i+1) 0) (p.getD (4*i+2) 0))).length =
          orig.length := by
      rw [List.length_set]; exact hlen
    have hup' : ∀ j, i + 1 ≤ j →
        (p.set i (lumaByte (p.getD (4*i) 0) (p.getD (4*i+1) 0) (p.getD (4*i+2) 0))).getD j 0 =
          orig.getD j 0 := by
      intro j hj
      rw [List.getD_eq_getElem?_getD, List.getElem?_set_ne (by omega),
        ← List.getD_eq_getElem?_getD]
      exact hup j (by omega)
    have hdone' : ∀ j, j < i + 1 → j < orig.length →
        (p.set i (lumaByte (p.getD (4*i) 0) (p.getD (4*i+1) 0) (p.getD (4*i+2) 0))).getD j 0 =
          lumaByte (orig.getD (4*j) 0) (orig.getD (4*j+1) 0) (orig.getD (4*j+2) 0) := by
      intro j hj hjl
      by_cases hji : j = i
      · subst hji
        have hjp : j < p.length := by omega
        rw [List.getD_eq_getElem?_getD, List.getElem?_set_eq_of_lt _ hjp]
        simp only [Option.getD_some]
        rw [hup (4*j) (by omega), hup (4*j+1) (by omega), hup (4*j+2) (by omega)]
      · rw [List.getD_eq_getElem?_getD, List.getElem?_set_ne (by omega),
          ← List.getD_eq_getElem?_getD]
        exact hdone j (by omega) hjl
    have hmain := ih (i + 1)
      (p.set i (lumaByte (p.getD (4*i) 0) (p.getD (4*i+1) 0) (p.getD (4*i+2) 0)))
      hlen' hup' hdone'
    refine ⟨hmain.1, ?_, ?_⟩
    · intro j hj hjl
      exact hmain.2.1 j (by omega) hjl
    · intro j hj
      exact hmain.2.2 j (by omega)

theorem grayLoop_length (p : List ℕ) : (grayLoop p).length = p.length :=
  (grayLoopAux_spec p (p.length / 4) 0 p rfl (fun _ _ => rfl)
    (fun j hj _ => absurd hj (Nat.not_lt_zero j))).1

theorem grayPack_length {p : List ℕ} {n : ℕ} (hlen : p.length = 4 * n) :
    (grayPack p).length = n := by
  have h := grayLoop_length p
  rw [grayPack, List.length_take, h]
  omega

theorem grayPack_getD {p : List ℕ} {n : ℕ} (hlen : p.length = 4 * n) (i : ℕ) (hi : i < n) :
    (grayPack p).getD i 0 =
      lumaByte (p.getD (4*i) 0) (p.getD (4*i+1) 0) (p.getD (4*i+2) 0) := by
  have h := grayLoopAux_spec p (p.length / 4) 0 p rfl (fun _ _ => rfl)
    (fun j hj _ => absurd hj (Nat.not_lt_zero j))
  have hi4 : i < p.length / 4 := by omega
  rw [grayPack, List.getD_eq_getElem?_getD, List.getElem?_take_of_lt hi4,
    ← List.getD_eq_getElem?_getD]
  exact h.2.1 i (by omega) (by omega)

/-- C2 counterexample: the claim reads the luma formula with exact (real)
arithmetic, but the code computes it in binary64.  On the buffer
`[0, 28, 152, 255, 255, 255, 255, 255]` the code stores bytes `[30, 254]`
(binary64 gives `30.999999999999996` and `254.99999999999997`), while the
byte truncation of the exact values `31.0` and `255.0` is `31` and `255`. -/
theorem gray_exact_truncation_counterexample :
    (getFrame exampleRF
        { exampleSensor with config := { exampleConfig with encoding := "gray" } }
        exampleScene).1.data = some [30, 254] ∧
    lumaByteExact 0 28 152 = 31 ∧
    lumaByteExact 255 255 255 = 255 ∧
    ((30 : ℕ) ≠ 31 ∧ (254 : ℕ) ≠ 255) := by
  refine ⟨by decide, by decide, by decide, by decide⟩

/-- C2 (amended): for the `"gray"` encoding, given a raw RGBA buffer of
length `4n` returned by the renderer, the frame's data is the packed buffer
of length `n` whose element `i` is the `ToUint8` conversion (truncation to a
byte) of the IEEE-754 binary64 evaluation of
`0.2126*R_i + 0.7152*G_i + 0.0722*B_i` on the original (pre-overwrite) pixel
values — the in-place packing never reads an already-overwritten byte — and
the reported channel count is 1. -/
theorem gray_frame_binary64_spec (rf : RendererFuns) (s : CameraSensor)
    (ss : SceneState) (n : ℕ) (henc : s.config.encoding = "gray")
    (hlen : (rawGrayInput rf s ss).length = 4 * n) :
    (getFrame rf s ss).1.data = some (grayPack (rawGrayInput rf s ss)) ∧
    (grayPack (rawGrayInput rf s ss)).length = n ∧
    (∀ i, i < n → (grayPack (rawGrayInput rf s ss)).getD i 0 =
      lumaByte ((rawGrayInput rf s ss).getD (4*i) 0)
        ((rawGrayInput rf s ss).getD (4*i+1) 0)
        ((rawGrayInput rf s ss).getD (4*i+2) 0)) ∧
    (getFrame rf s ss).1.shape = [s.renderer.width, s.renderer.height, 1] := by
  have haux := getFrame_aux_gray rf s (captureState s ss) henc
  refine ⟨?_, grayPack_length hlen, fun i hi => grayPack_getD hlen i hi, ?_⟩
  · rw [getFrame_fst, haux]
    rfl
  · rw [getFrame_fst, haux]

/-- Witness for C2 (amended) on the concrete 2-pixel buffer
`[0, 28, 152, 255, 255, 255, 255, 255]`: output `[30, 254]`, length 2, with
each byte the binary64 luma of the original pixel. -/
theorem gray_frame_binary64_spec_witness :
    (getFrame exampleRF
        { exampleSensor with config := { exampleConfig with encoding := "gray" } }
        exampleScene).1.data =
      some (grayPack [0, 28, 152, 255, 255, 255, 255, 255]) ∧
    (grayPack [0, 28, 152, 255, 255, 255, 255, 255]).length = 2 ∧
    (grayPack [0, 28, 152, 255, 255, 255, 255, 255]).getD 0 0 = lumaByte 0 28 152 ∧
    (grayPack [0, 28, 152, 255, 255, 255, 255, 255]).getD 1 0 = lumaByte 255 255 255 := by
  have h := gray_frame_binary64_spec exampleRF
    { exampleSensor with config := { exampleConfig with encoding := "gray" } }
    exampleScene 2 rfl (by decide)
  exact ⟨h.1, h.2.1, h.2.2.1 0 (by decide), h.2.2.1 1 (by decide)⟩

end CameraSensorModel
